import Mathlib

/-!
Verification development for the discodrome Discord music bot
(src/subsonic.py, src/ui.py, src/extensions/music.py), shallowly embedded
in Lean 4. Pure record mapping becomes Lean functions; the command
handlers become functions on an explicit per-guild player state, with the
external facts (voice-channel membership, catalog responses, message
delivery outcomes) passed in as parameters.
-/

/-- Embeds the JSON record handed to `Song.__init__` (src/subsonic.py).
A field is `none` exactly when the corresponding key is absent from the
record, mirroring the Python `'key' in json_object` membership tests. -/
structure SongRecord where
  id : Option String
  title : Option String
  artist : Option String
  album : Option String
  duration : Option Int
deriving DecidableEq

/-- Embeds the `Song` entity of src/subsonic.py at the level of its public
properties: each property returns the backing field unchanged. -/
structure Song where
  id : String
  title : String
  album : String
  artist : String
  duration : Int
deriving DecidableEq

/-- Embeds `Song.__init__` (src/subsonic.py lines 26-34). Note the source
assigns `self._album` from the record's `artist` key with sentinel
"Unknown Artist", and `self._artist` from the record's `album` key with
sentinel "Unknown Album"; the `album` and `artist` properties return those
fields unchanged, so the two tags come out swapped. `title`, `id` and
`duration` are mapped from their own keys. -/
def Song.ofJson (j : SongRecord) : Song where
  id := j.id.getD ""
  title := j.title.getD "Unknown Track"
  album := j.artist.getD "Unknown Artist"
  artist := j.album.getD "Unknown Album"
  duration := j.duration.getD 0

/-- Embeds the result object found under `"subsonic-response" -> "searchResult3"`
in a search response: `song` is `none` exactly when the `"song"` key is
absent from that object. -/
structure SearchResult3 where
  song : Option (List SongRecord)
deriving DecidableEq

/-- Embeds the result object under `"subsonic-response" -> "randomSongs"`. -/
structure RandomSongs where
  song : Option (List SongRecord)
deriving DecidableEq

/-- Embeds the result object under `"subsonic-response" -> "similarSongs2"`. -/
structure SimilarSongs2 where
  song : Option (List SongRecord)
deriving DecidableEq

/-- Embeds the response handling of `search` (src/subsonic.py lines 60-85):
the code iterates `search_data["subsonic-response"]["searchResult3"]['song']`
appending `Song(item)`; when the `"song"` key is absent the subscript
raises `KeyError`, which propagates to the caller. -/
def search (resp : SearchResult3) : Except String (List Song) :=
  match resp.song with
  | some items => .ok (items.map Song.ofJson)
  | none => .error "KeyError: song"

/-- Embeds the response handling of `get_random_songs` (src/subsonic.py
lines 87-117): iterates `...["randomSongs"]['song']`; `KeyError` when the
`"song"` key is absent. -/
def get_random_songs (resp : RandomSongs) : Except String (List Song) :=
  match resp.song with
  | some items => .ok (items.map Song.ofJson)
  | none => .error "KeyError: song"

/-- Embeds the response handling of `get_similar_songs` (src/subsonic.py
lines 119-134): iterates `...["similarSongs2"]['song']`; `KeyError` when
the `"song"` key is absent. -/
def get_similar_songs (resp : SimilarSongs2) : Except String (List Song) :=
  match resp.song with
  | some items => .ok (items.map Song.ofJson)
  | none => .error "KeyError: song"

/-- Record exercising every populated field of `Song.__init__`. -/
def c2Record : SongRecord :=
  { id := some "1", title := some "T", artist := some "ArtistName",
    album := some "AlbumName", duration := some 100 }

/-- Record with every key absent, exercising every sentinel default. -/
def emptyRecord : SongRecord :=
  { id := none, title := none, artist := none, album := none, duration := none }

/-- Embeds a Discord guild as far as ui.py observes it. -/
structure Guild where
  id : Nat
deriving DecidableEq

/-- Embeds the slice of a Discord interaction observed by the message
senders of src/ui.py: only whether it still carries a guild. -/
structure Interaction where
  guild : Option Guild
deriving DecidableEq

/-- Observable outcome of one call to a message sender of src/ui.py.
`successAttempt` is the 1-based number of the send attempt on which
delivery succeeded (`none` when no attempt succeeded); `attempts` counts
send attempts performed; `delays` counts the 0.5-second sleeps performed;
`raised` records whether an exception escaped to the caller;
`loggedExhausted` records the final error log after exhausting all
attempts; `loggedInvalid` records the warning logged for an interaction
that is `None` or carries no guild. -/
structure MsgResult where
  successAttempt : Option Nat
  attempts : Nat
  delays : Nat
  raised : Bool
  loggedExhausted : Bool
  loggedInvalid : Bool
deriving DecidableEq

/-- Embeds the retry loop of `SysMsg.msg` (src/ui.py lines 39-67):
`attempt = 0; while attempt < 3:` try to send (via followup or initial
response, which does not affect the outcome) — success returns at once;
every exception raised by the send (`discord.NotFound`,
`discord.HTTPException`, or any other `Exception`) is caught, `attempt`
is incremented and the loop sleeps 0.5 seconds before re-testing its
condition; once `attempt` reaches 3 the loop exits and an error is
logged. `outcome k` tells whether the k-th (0-based) send attempt would
succeed. -/
def sysMsgLoop (outcome : Nat → Bool) (attempt delays : Nat) : MsgResult :=
  if attempt < 3 then
    if outcome attempt then
      { successAttempt := some (attempt + 1), attempts := attempt + 1, delays := delays,
        raised := false, loggedExhausted := false, loggedInvalid := false }
    else
      sysMsgLoop outcome (attempt + 1) (delays + 1)
  else
    { successAttempt := none, attempts := attempt, delays := delays,
      raised := false, loggedExhausted := true, loggedInvalid := false }
termination_by 3 - attempt
decreasing_by omega

/-- Embeds `SysMsg.msg` (src/ui.py lines 14-67): when the interaction is
`None` or its guild is `None`, a warning is logged and the function
returns before building the embed, with no send attempt, no delay and no
exception; otherwise the retry loop runs. -/
def SysMsg.msg (interaction : Option Interaction) (outcome : Nat → Bool) : MsgResult :=
  match interaction with
  | none =>
      { successAttempt := none, attempts := 0, delays := 0,
        raised := false, loggedExhausted := false, loggedInvalid := true }
  | some i =>
      match i.guild with
      | none =>
          { successAttempt := none, attempts := 0, delays := 0,
            raised := false, loggedExhausted := false, loggedInvalid := true }
      | some _ => sysMsgLoop outcome 0 0

/-- Embeds the retry loop of `ErrMsg.msg` (src/ui.py lines 153-178); its
control flow is identical to the loop of `SysMsg.msg`, differing only in
the text logged. -/
def errMsgLoop (outcome : Nat → Bool) (attempt delays : Nat) : MsgResult :=
  if attempt < 3 then
    if outcome attempt then
      { successAttempt := some (attempt + 1), attempts := attempt + 1, delays := delays,
        raised := false, loggedExhausted := false, loggedInvalid := false }
    else
      errMsgLoop outcome (attempt + 1) (delays + 1)
  else
    { successAttempt := none, attempts := attempt, delays := delays,
      raised := false, loggedExhausted := true, loggedInvalid := false }
termination_by 3 - attempt
decreasing_by omega

/-- Embeds `ErrMsg.msg` (src/ui.py lines 142-178): same invalid-interaction
guard and retry policy as `SysMsg.msg`. -/
def ErrMsg.msg (interaction : Option Interaction) (outcome : Nat → Bool) : MsgResult :=
  match interaction with
  | none =>
      { successAttempt := none, attempts := 0, delays := 0,
        raised := false, loggedExhausted := false, loggedInvalid := true }
  | some i =>
      match i.guild with
      | none =>
          { successAttempt := none, attempts := 0, delays := 0,
            raised := false, loggedExhausted := false, loggedInvalid := true }
      | some _ => errMsgLoop outcome 0 0

/-- Autoplay modes of data.AutoplayMode (referenced by src/extensions/music.py). -/
inductive AutoplayMode
  | NONE
  | RANDOM
  | SIMILAR
deriving DecidableEq

/-- Embeds the per-guild player state mutated by src/extensions/music.py:
`queue` is the guild's playback queue and `current_song` the track
currently streaming. Python lists are untyped and `MusicCog.stop`
executes `player.queue.insert(0, player.current_song)` even when
`current_song` is `None`, so queue elements are `Option Song`: enqueue
operations insert `some` songs, while that insert can place a `none`. -/
structure PlayerState where
  queue : List (Option Song)
  current_song : Option Song
deriving DecidableEq

/-- Observable effects of one invocation of `MusicCog.stop`.
`invokedNotPlayingUnawaited` records that `ui.ErrMsg.not_playing` was
invoked — in the source this call is neither awaited nor followed by a
return; `stoppedStreaming` records `voice_client.stop()`;
`reportedStopped` records the "Stopped queue playback" confirmation. -/
structure StopOutcome where
  invokedNotPlayingUnawaited : Bool
  reportedBotNotInVoice : Bool
  stoppedStreaming : Bool
  reportedStopped : Bool
deriving DecidableEq

/-- Embeds `MusicCog.stop` (src/extensions/music.py lines 112-136).
When `current_song` is `None` the handler invokes the not-playing error
reporter but continues (no return). When no voice client exists it
reports and returns with the state untouched. Otherwise it stops the
voice client, inserts `current_song` — whatever it is, possibly `None` —
at the front of the queue, clears `current_song`, and reports. -/
def MusicCog.stop (st : PlayerState) (voiceConnected : Bool) : PlayerState × StopOutcome :=
  let invoked := st.current_song.isNone
  if voiceConnected then
    ({ queue := st.current_song :: st.queue, current_song := none },
     { invokedNotPlayingUnawaited := invoked, reportedBotNotInVoice := false,
       stoppedStreaming := true, reportedStopped := true })
  else
    (st,
     { invokedNotPlayingUnawaited := invoked, reportedBotNotInVoice := true,
       stoppedStreaming := false, reportedStopped := false })

/-- Observable outcome of one playback-start attempt. `started` is the
queue element popped into `current_song` (`none` when nothing was
started); `reportedQueueEmpty` records the "queue empty" report;
`expansionInvoked` records whether autoplay expansion ran. -/
structure PlayStartOutcome where
  started : Option (Option Song)
  reportedQueueEmpty : Bool
  expansionInvoked : Bool
deriving DecidableEq

/-- Modelled from the spec: `startQueuePlayback` — the player module that
implements `play_audio_queue` is not under src/ (src/extensions/music.py
only calls it). Spec section 4.3: "if a track is already streaming,
no-op. Otherwise: pop front of queue into current_track; if queue was
empty and autoplay_mode != NONE, first invoke autoplay expansion to
produce tracks before popping. If still nothing to play, report queue
empty without error." The `expansion` parameter stands for the batch of
tracks the catalog client returns for the active autoplay mode. -/
def startQueuePlayback (mode : AutoplayMode) (expansion : List (Option Song))
    (isStreaming : Bool) (st : PlayerState) : PlayerState × PlayStartOutcome :=
  if isStreaming then
    (st, { started := none, reportedQueueEmpty := false, expansionInvoked := false })
  else if st.queue.isEmpty ∧ mode ≠ AutoplayMode.NONE then
    match st.queue ++ expansion with
    | [] =>
        ({ st with queue := [] },
         { started := none, reportedQueueEmpty := true, expansionInvoked := true })
    | t :: rest =>
        ({ queue := rest, current_song := t },
         { started := some t, reportedQueueEmpty := false, expansionInvoked := true })
  else
    match st.queue with
    | [] =>
        (st, { started := none, reportedQueueEmpty := true, expansionInvoked := false })
    | t :: rest =>
        ({ queue := rest, current_song := t },
         { started := some t, reportedQueueEmpty := false, expansionInvoked := false })

/-- Modelled from the spec: `skip` — `Player.skip_track` lives in the
player module absent from src/ (src/extensions/music.py only calls it).
Spec section 4.3: "halts active streaming, discards current_track without
requeueing, then calls startQueuePlayback to advance." -/
def skip (mode : AutoplayMode) (expansion : List (Option Song))
    (st : PlayerState) : PlayerState × PlayStartOutcome :=
  startQueuePlayback mode expansion false { st with current_song := none }

/-- Modelled from the spec: the `Album` entity — its class in subsonic.py
is not under src/ (ui.py imports it; music.py reads `album.songs`). Spec
data model: identifier-bearing record with a name, an artist and an
ordered sequence of tracks. -/
structure Album where
  name : String
  artist : String
  songs : List Song
deriving DecidableEq

/-- User-visible report produced by one invocation of `MusicCog.play`. -/
inductive PlayReport
  | userNotInVoice
  | cannotConnectCrash
  | alreadyPlaying
  | queueIsEmpty
  | startedQueuePlayback
  | provideQueryType
  | noTrackFound
  | addedTrackToQueue
  | noAlbumFound
  | addedAlbumToQueue
  | fellThrough
deriving DecidableEq

/-- Result of one invocation of `MusicCog.play`: the final player state,
the report sent, the playback-start outcome when `play_audio_queue` was
reached, and — as a pure observation for stating enqueue effects — the
queue as it stood right after the enqueue step (music.py line 91 or the
loop at lines 104-105), `none` when no enqueue happened. -/
structure PlayCmdResult where
  state : PlayerState
  report : PlayReport
  playback : Option PlayStartOutcome
  queueAfterEnqueue : Option (List (Option Song))
deriving DecidableEq

/-- Embeds `MusicCog.play` (src/extensions/music.py lines 45-109).
External facts are parameters: `userInVoice` is `interaction.user.voice
is not None`; `voiceConnected` tells whether `get_voice_client` yields a
client (when it cannot connect, the source goes on to call
`voice_client.is_playing()` on `None` and an `AttributeError` escapes —
`cannotConnectCrash`); `isPlaying` is `voice_client.is_playing()`;
`searchResult` is the catalog response for the track query
(song_count=1); `albumResult` the response of `subsonic.search_album`;
`player.play_audio_queue` is the spec-modelled `startQueuePlayback`. -/
def MusicCog.play (userInVoice voiceConnected isPlaying : Bool) (mode : AutoplayMode)
    (querytype : Option String) (query : Option String)
    (searchResult : List Song) (albumResult : Option Album)
    (expansion : List (Option Song)) (st : PlayerState) : PlayCmdResult :=
  if ¬ userInVoice then
    { state := st, report := .userNotInVoice, playback := none, queueAfterEnqueue := none }
  else if ¬ voiceConnected then
    { state := st, report := .cannotConnectCrash, playback := none, queueAfterEnqueue := none }
  else if isPlaying ∧ query = none then
    { state := st, report := .alreadyPlaying, playback := none, queueAfterEnqueue := none }
  else
    match query with
    | none =>
        if st.queue = [] ∧ mode = AutoplayMode.NONE then
          { state := st, report := .queueIsEmpty, playback := none, queueAfterEnqueue := none }
        else
          let r := startQueuePlayback mode expansion isPlaying st
          { state := r.1, report := .startedQueuePlayback, playback := some r.2,
            queueAfterEnqueue := none }
    | some _q =>
        match querytype with
        | none =>
            { state := st, report := .provideQueryType, playback := none,
              queueAfterEnqueue := none }
        | some qt =>
            if qt = "track" then
              match searchResult with
              | [] =>
                  { state := st, report := .noTrackFound, playback := none,
                    queueAfterEnqueue := none }
              | s :: _ =>
                  let st1 : PlayerState := { st with queue := st.queue ++ [some s] }
                  let r := startQueuePlayback mode expansion isPlaying st1
                  { state := r.1, report := .addedTrackToQueue, playback := some r.2,
                    queueAfterEnqueue := some st1.queue }
            else if qt = "album" then
              match albumResult with
              | none =>
                  { state := st, report := .noAlbumFound, playback := none,
                    queueAfterEnqueue := none }
              | some album =>
                  let st1 : PlayerState := { st with queue := st.queue ++ album.songs.map some }
                  let r := startQueuePlayback mode expansion isPlaying st1
                  { state := r.1, report := .addedAlbumToQueue, playback := some r.2,
                    queueAfterEnqueue := some st1.queue }
            else
              let r := startQueuePlayback mode expansion isPlaying st
              { state := r.1, report := .fellThrough, playback := some r.2,
                queueAfterEnqueue := none }

/-- Observable effects of one delivery of the voice-state-update event. -/
structure WatcherOutcome where
  waited : Bool
  disconnected : Bool
  clearedState : Bool
deriving DecidableEq

/-- Embeds `MusicCog.on_voice_state_update` (src/extensions/music.py lines
237-263). `membersBefore` is the voice-channel occupancy read when the
event fires; `membersAfterWait` the occupancy re-read after the
10-second sleep. Disconnecting clears the guild's queue and current
song. -/
def on_voice_state_update (voiceClientConnected : Bool)
    (membersBefore membersAfterWait : Nat) (st : PlayerState) :
    PlayerState × WatcherOutcome :=
  if ¬ voiceClientConnected then
    (st, { waited := false, disconnected := false, clearedState := false })
  else if membersBefore = 1 then
    if membersAfterWait = 1 then
      ({ queue := [], current_song := none },
       { waited := true, disconnected := true, clearedState := true })
    else
      (st, { waited := true, disconnected := false, clearedState := false })
  else
    (st, { waited := false, disconnected := false, clearedState := false })

/-- Claim C1: evaluating the embedded `MusicCog.stop` at a state with no
current track and a connected voice client shows the handler does not
abort when its precondition fails: it invokes the not-playing reporter
(without awaiting or returning), stops the voice client, mutates the
queue from `[]` to `[none]` by inserting the empty `current_song` at the
front, and reports "Stopped queue playback". -/
theorem stop_missing_precondition_mutates :
    MusicCog.stop { queue := [], current_song := none } true =
      ({ queue := [none], current_song := none },
       { invokedNotPlayingUnawaited := true, reportedBotNotInVoice := false,
         stoppedStreaming := true, reportedStopped := true }) := rfl

/-- Claim C2: evaluating `Song.ofJson` shows title and duration are mapped
from their own keys with the claimed sentinels, but artist and album come
out swapped: on a record with artist "ArtistName" and album "AlbumName"
the constructed song has artist "AlbumName" and album "ArtistName", and
on a record with every key absent the artist defaults to "Unknown Album"
and the album to "Unknown Artist". -/
theorem song_fields_swapped_on_construction :
    (Song.ofJson c2Record).title = "T" ∧
    (Song.ofJson c2Record).duration = 100 ∧
    (Song.ofJson c2Record).artist = "AlbumName" ∧
    (Song.ofJson c2Record).album = "ArtistName" ∧
    (Song.ofJson emptyRecord).title = "Unknown Track" ∧
    (Song.ofJson emptyRecord).duration = 0 ∧
    (Song.ofJson emptyRecord).artist = "Unknown Album" ∧
    (Song.ofJson emptyRecord).album = "Unknown Artist" :=
  ⟨rfl, rfl, rfl, rfl, rfl, rfl, rfl, rfl⟩

/-- Claim C3: evaluating the three catalog operations at a response whose
result object lacks the `"song"` key shows each raises `KeyError` instead
of returning the empty list; the empty list is returned only when the key
is present and maps to an empty list. -/
theorem search_raises_on_missing_song_key :
    search { song := none } = .error "KeyError: song" ∧
    get_random_songs { song := none } = .error "KeyError: song" ∧
    get_similar_songs { song := none } = .error "KeyError: song" ∧
    search { song := some [] } = .ok [] :=
  ⟨rfl, rfl, rfl, rfl⟩

/-- Any track a playback-start attempt pops came from the queue or from
the autoplay expansion batch. -/
theorem started_mem (mode : AutoplayMode) (expansion : List (Option Song))
    (q : List (Option Song)) (c : Option Song) (x : Option Song)
    (h : (startQueuePlayback mode expansion false ⟨q, c⟩).2.started = some x) :
    x ∈ q ++ expansion := by
  cases q with
  | nil =>
    by_cases hm : mode = AutoplayMode.NONE
    · simp [startQueuePlayback, hm] at h
    · cases expansion with
      | nil => simp [startQueuePlayback, hm] at h
      | cons e rest =>
        simp [startQueuePlayback, hm] at h
        simp [h]
  | cons y rest =>
    simp [startQueuePlayback] at h
    simp [h]

/-- Claim C5: when a track t is currently playing and the bot is connected,
`stop` pushes t back onto the front of the queue and clears
`current_song`; a playback-start attempt immediately after replays t;
`skip` discards the current track without requeueing it, so (when t sits
neither in the queue nor in the expansion batch) the track skip starts is
never t. -/
theorem stop_requeues_current_track (st : PlayerState) (t : Song) (mode : AutoplayMode)
    (expansion : List (Option Song)) (h : st.current_song = some t) :
    ((MusicCog.stop st true).1.queue = some t :: st.queue ∧
     (MusicCog.stop st true).1.current_song = none) ∧
    (startQueuePlayback mode expansion false (MusicCog.stop st true).1).2.started =
      some (some t) ∧
    (some t ∉ st.queue → some t ∉ expansion →
      (skip mode expansion st).2.started ≠ some (some t)) := by
  obtain ⟨q, c⟩ := st
  cases h
  refine ⟨⟨rfl, rfl⟩, rfl, ?_⟩
  intro hq he hcontra
  have hmem := started_mem mode expansion q none (some t) hcontra
  rcases List.mem_append.mp hmem with hmem | hmem
  · exact hq hmem
  · exact he hmem

/-- Witness for claim C5 at a concrete state. -/
theorem stop_requeues_current_track_witness :
    ((MusicCog.stop ⟨[], some (Song.mk "1" "T" "Al" "Ar" 100)⟩ true).1.queue =
        [some (Song.mk "1" "T" "Al" "Ar" 100)]) ∧
    (skip AutoplayMode.NONE [] ⟨[], some (Song.mk "1" "T" "Al" "Ar" 100)⟩).2.started ≠
        some (some (Song.mk "1" "T" "Al" "Ar" 100)) := by
  have h := stop_requeues_current_track ⟨[], some (Song.mk "1" "T" "Al" "Ar" 100)⟩
      (Song.mk "1" "T" "Al" "Ar" 100) AutoplayMode.NONE [] rfl
  exact ⟨h.1.1, h.2.2 (by simp) (by simp)⟩

/-- Claim C6: autoplay expansion is invoked at a playback-start attempt
exactly when the queue is empty at that moment and the autoplay mode is
not NONE; and the play command issued with no query, an empty queue and
mode NONE reports "queue empty", starts no playback and leaves the state
untouched (so `current_song` remains as it was — empty stays empty). -/
theorem autoplay_trigger_iff (mode : AutoplayMode) (expansion : List (Option Song))
    (st st0 : PlayerState) (h0 : st0.queue = []) :
    ((startQueuePlayback mode expansion false st).2.expansionInvoked = true ↔
      (st.queue = [] ∧ mode ≠ AutoplayMode.NONE)) ∧
    MusicCog.play true true false AutoplayMode.NONE none none [] none expansion st0 =
      { state := st0, report := .queueIsEmpty, playback := none,
        queueAfterEnqueue := none } := by
  constructor
  · obtain ⟨q, c⟩ := st
    cases q with
    | nil =>
      by_cases hm : mode = AutoplayMode.NONE
      · simp [startQueuePlayback, hm]
      · cases expansion <;> simp [startQueuePlayback, hm]
    | cons y rest => simp [startQueuePlayback]
  · simp [MusicCog.play, h0]

/-- Witness for claim C6 at a concrete state and mode. -/
theorem autoplay_trigger_iff_witness :
    ((startQueuePlayback AutoplayMode.RANDOM [] false ⟨[], none⟩).2.expansionInvoked = true ↔
      ((⟨[], none⟩ : PlayerState).queue = [] ∧ AutoplayMode.RANDOM ≠ AutoplayMode.NONE)) ∧
    MusicCog.play true true false AutoplayMode.NONE none none [] none [] ⟨[], none⟩ =
      { state := ⟨[], none⟩, report := .queueIsEmpty, playback := none,
        queueAfterEnqueue := none } :=
  autoplay_trigger_iff AutoplayMode.RANDOM [] ⟨[], none⟩ ⟨[], none⟩ rfl

/-- Claim C7: a play invocation with querytype=track whose catalog search
returns zero tracks reports "no track found" and returns with the player
state — queue contents included — exactly as it was. -/
theorem play_track_no_results (isPlaying : Bool) (mode : AutoplayMode) (q : String)
    (albumResult : Option Album) (expansion : List (Option Song)) (st : PlayerState) :
    MusicCog.play true true isPlaying mode (some "track") (some q) [] albumResult
        expansion st =
      { state := st, report := .noTrackFound, playback := none,
        queueAfterEnqueue := none } := by
  cases isPlaying <;> rfl

/-- Claim C8: a play invocation with querytype=album whose catalog search
returns an album with N tracks appends exactly those N tracks to the
queue, in album order, behind the tracks already queued: the queue right
after the enqueue step is the old queue followed by the album's songs,
and when the bot is already streaming (so the subsequent playback start
is a no-op) that is also the final queue; its length grows by exactly N. -/
theorem play_album_appends (isPlaying : Bool) (mode : AutoplayMode) (q : String)
    (album : Album) (searchResult : List Song) (expansion : List (Option Song))
    (st : PlayerState) :
    (MusicCog.play true true isPlaying mode (some "album") (some q) searchResult
        (some album) expansion st).queueAfterEnqueue =
      some (st.queue ++ album.songs.map some) ∧
    (MusicCog.play true true true mode (some "album") (some q) searchResult
        (some album) expansion st).state =
      { st with queue := st.queue ++ album.songs.map some } ∧
    (st.queue ++ album.songs.map some).length = st.queue.length + album.songs.length := by
  refine ⟨?_, rfl, by simp⟩
  cases isPlaying <;> rfl

/-- Claim C4: for a valid interaction, both message senders attempt
delivery at most 3 times and never let a delivery exception escape;
given 2 failures followed by a success, delivery succeeds on the 3rd
attempt after exactly 2 delays; given 3 consecutive failures, the sender
logs the exhaustion error and returns normally with no exception. -/
theorem sendMessage_retry_policy (i : Interaction) (g : Guild) (outcome : Nat → Bool)
    (hg : i.guild = some g) :
    ((SysMsg.msg (some i) outcome).attempts ≤ 3 ∧
     (SysMsg.msg (some i) outcome).raised = false ∧
     (ErrMsg.msg (some i) outcome).attempts ≤ 3 ∧
     (ErrMsg.msg (some i) outcome).raised = false) ∧
    (outcome 0 = false → outcome 1 = false → outcome 2 = true →
      (SysMsg.msg (some i) outcome).successAttempt = some 3 ∧
      (SysMsg.msg (some i) outcome).delays = 2 ∧
      (ErrMsg.msg (some i) outcome).successAttempt = some 3 ∧
      (ErrMsg.msg (some i) outcome).delays = 2) ∧
    (outcome 0 = false → outcome 1 = false → outcome 2 = false →
      (SysMsg.msg (some i) outcome).successAttempt = none ∧
      (SysMsg.msg (some i) outcome).loggedExhausted = true ∧
      (SysMsg.msg (some i) outcome).raised = false ∧
      (ErrMsg.msg (some i) outcome).successAttempt = none ∧
      (ErrMsg.msg (some i) outcome).loggedExhausted = true ∧
      (ErrMsg.msg (some i) outcome).raised = false) := by
  have hs : SysMsg.msg (some i) outcome = sysMsgLoop outcome 0 0 := by
    simp [SysMsg.msg, hg]
  have he : ErrMsg.msg (some i) outcome = errMsgLoop outcome 0 0 := by
    simp [ErrMsg.msg, hg]
  rw [hs, he]
  cases h0 : outcome 0 <;> cases h1 : outcome 1 <;> cases h2 : outcome 2 <;>
    simp [sysMsgLoop, errMsgLoop, h0, h1, h2]

/-- Witness for claim C4: an outcome sequence failing twice then
succeeding delivers on the 3rd attempt after 2 delays. -/
theorem sendMessage_retry_policy_witness :
    (SysMsg.msg (some ⟨some ⟨1⟩⟩) (fun k => decide (2 ≤ k))).successAttempt = some 3 ∧
    (SysMsg.msg (some ⟨some ⟨1⟩⟩) (fun k => decide (2 ≤ k))).delays = 2 ∧
    (ErrMsg.msg (some ⟨some ⟨1⟩⟩) (fun k => decide (2 ≤ k))).successAttempt = some 3 := by
  have h := sendMessage_retry_policy ⟨some ⟨1⟩⟩ ⟨1⟩ (fun k => decide (2 ≤ k)) rfl
  exact ⟨(h.2.1 rfl rfl rfl).1, (h.2.1 rfl rfl rfl).2.1, (h.2.1 rfl rfl rfl).2.2.1⟩

/-- Claim C9: the occupancy watcher disconnects or clears a guild's state
only when the bot is the sole channel member both at the event and at the
re-check after the 10-second wait; in particular, if the channel holds 2
or more members at the re-check, no disconnect or clear happens and the
state is untouched. -/
theorem watcher_disconnect_requires_sole_member (vc : Bool) (b a : Nat)
    (st : PlayerState) :
    (((on_voice_state_update vc b a st).2.disconnected = true ∨
      (on_voice_state_update vc b a st).2.clearedState = true) →
        vc = true ∧ b = 1 ∧ a = 1) ∧
    (2 ≤ a →
      (on_voice_state_update vc b a st).2.disconnected = false ∧
      (on_voice_state_update vc b a st).2.clearedState = false ∧
      (on_voice_state_update vc b a st).1 = st) := by
  cases vc
  · simp [on_voice_state_update]
  · by_cases hb : b = 1
    · by_cases ha : a = 1
      · subst hb ha
        simp [on_voice_state_update]
      · simp [on_voice_state_update, hb, ha]
    · simp [on_voice_state_update, hb]

/-- Witness for claim C9: with 2 members present at the re-check, the
watcher neither disconnects nor clears. -/
theorem watcher_disconnect_requires_sole_member_witness :
    (on_voice_state_update true 1 2 ⟨[], none⟩).2.disconnected = false ∧
    (on_voice_state_update true 1 2 ⟨[], none⟩).2.clearedState = false := by
  have h := (watcher_disconnect_requires_sole_member true 1 2 ⟨[], none⟩).2 (by decide)
  exact ⟨h.1, h.2.1⟩

/-- Claim C10: when the interaction handed to a message sender is absent
or carries no guild, both senders return with zero delivery attempts,
zero delays and no exception. -/
theorem msg_invalid_interaction_no_attempt (io : Option Interaction)
    (outcome : Nat → Bool)
    (h : io = none ∨ ∃ i, io = some i ∧ i.guild = none) :
    (SysMsg.msg io outcome).attempts = 0 ∧ (SysMsg.msg io outcome).delays = 0 ∧
    (SysMsg.msg io outcome).raised = false ∧
    (ErrMsg.msg io outcome).attempts = 0 ∧ (ErrMsg.msg io outcome).delays = 0 ∧
    (ErrMsg.msg io outcome).raised = false := by
  rcases h with rfl | ⟨i, rfl, hg⟩
  · exact ⟨rfl, rfl, rfl, rfl, rfl, rfl⟩
  · simp [SysMsg.msg, ErrMsg.msg, hg]

/-- Witness for claim C10 at the absent interaction. -/
theorem msg_invalid_interaction_no_attempt_witness :
    (SysMsg.msg none (fun _ => true)).attempts = 0 ∧
    (SysMsg.msg none (fun _ => true)).delays = 0 ∧
    (SysMsg.msg none (fun _ => true)).raised = false ∧
    (ErrMsg.msg none (fun _ => true)).attempts = 0 ∧
    (ErrMsg.msg none (fun _ => true)).delays = 0 ∧
    (ErrMsg.msg none (fun _ => true)).raised = false :=
  msg_invalid_interaction_no_attempt none (fun _ => true) (Or.inl rfl)
